import Mathlib

/-!
Shallow embedding of the BLE session controller of `src/app/search-actions.tsx`
(the `SearchActions` screen of keithconer/searchit), together with theorems
settling the specification's claims about it.

Conventions of the embedding:
* Component-local React state (`useState` hooks) becomes the fields of
  `CtrlState`; each handler becomes a pure function from inputs and old state
  to new state, returning alongside it the externally visible effects
  (alerts shown, characteristic writes issued) as a list of `Emit` values.
* The BLE transport is a collaborator: its outcomes (an RSSI read result, a
  characteristic-write success or failure, a delivered notification) are
  explicit arguments to the functions they influence.
* `rssi` values are integers in dBm, `Option Int` where the source has
  `number | null`.
-/

/-- Which actuator a command, notification or timer concerns.  The source
keeps two parallel groups of hooks (`buzzerState`/`buzzerLoading` and
`ledState`/`ledLoading`); this type indexes them. -/
inductive Actuator
  | buzzer
  | led
deriving DecidableEq, Repr

/-- The component-local state of `SearchActions`: `currentRssi`,
`disconnectModalVisible`, and the two actuator state/loading hook pairs
(`search-actions.tsx` lines 65-72). -/
structure CtrlState where
  currentRssi : Option Int
  disconnectModalVisible : Bool
  buzzerState : Bool
  buzzerLoading : Bool
  ledState : Bool
  ledLoading : Bool
deriving DecidableEq, Repr

/-- The spec's `connectionHealthy` flag, realised in the source as the
negation of the disconnect modal being shown: the modal is raised exactly
when the connection is deemed lost. -/
def connectionHealthy (s : CtrlState) : Bool :=
  !s.disconnectModalVisible

/-- `getProximity` (`search-actions.tsx` lines 30-36): derives the proximity
label shown under the RSSI readout. -/
def getProximity (rssi : Option Int) : String :=
  match rssi with
  | none => ""
  | some r =>
    if r ≥ -55 then "Super Near"
    else if r ≥ -65 then "Near"
    else if r ≥ -80 then "Far"
    else "Super Far"

/-- `getSignalIcon` (`search-actions.tsx` lines 38-44): picks the signal-bars
icon for the current RSSI. -/
def getSignalIcon (rssi : Option Int) : String :=
  match rssi with
  | none => "signal-off"
  | some r =>
    if r ≥ -55 then "signal-cellular-3"
    else if r ≥ -65 then "signal-cellular-2"
    else if r ≥ -80 then "signal-cellular-1"
    else "signal-cellular-outline"

/-- An externally visible effect of a handler: an alert dialog shown to the
user (`Alert.alert(title, message)`) or a value written to the peripheral's
command characteristic
(`writeCharacteristicWithResponseForService(..., base64Command)`). -/
inductive Emit
  | alert (title message : String)
  | write (base64Value : String)
deriving DecidableEq, Repr

/-- Whether an emitted effect is an alert dialog. -/
def Emit.isAlert : Emit → Bool
  | .alert _ _ => true
  | .write _ => false

/-- Whether an emitted effect is a write to the command characteristic. -/
def Emit.isWrite : Emit → Bool
  | .alert _ _ => false
  | .write _ => true

/-- Number of alert dialogs among the emitted effects. -/
def alertCount (es : List Emit) : Nat :=
  es.countP (fun e => e.isAlert)

/-- Number of command-characteristic writes among the emitted effects. -/
def writeCount (es : List Emit) : Nat :=
  es.countP (fun e => e.isWrite)

/-- UTF-8 encoding of a single character's code point, as byte values. -/
def charUtf8 (c : Char) : List Nat :=
  let n := c.toNat
  if n < 0x80 then [n]
  else if n < 0x800 then
    [0xC0 ||| (n >>> 6), 0x80 ||| (n &&& 0x3F)]
  else if n < 0x10000 then
    [0xE0 ||| (n >>> 12), 0x80 ||| ((n >>> 6) &&& 0x3F), 0x80 ||| (n &&& 0x3F)]
  else
    [0xF0 ||| (n >>> 18), 0x80 ||| ((n >>> 12) &&& 0x3F),
     0x80 ||| ((n >>> 6) &&& 0x3F), 0x80 ||| (n &&& 0x3F)]

/-- UTF-8 byte sequence of a string (`Buffer.from(command, "utf8")`). -/
def utf8Bytes (s : String) : List Nat :=
  (s.data.map charUtf8).flatten

/-- The base64 alphabet in index order. -/
def base64Alphabet : String :=
  "ABCDEFGHIJKLMNOPQRSTUVWXYZabcdefghijklmnopqrstuvwxyz0123456789+/"

/-- The base64 digit character for a 6-bit value. -/
def b64Char (n : Nat) : Char :=
  base64Alphabet.data.getD n 'A'

/-- Standard base64 of a byte list, processed three bytes at a time with
trailing `=` padding. -/
def base64Chunks : List Nat → List Char
  | [] => []
  | [a] =>
    [b64Char (a >>> 2), b64Char ((a &&& 3) <<< 4), '=', '=']
  | [a, b] =>
    [b64Char (a >>> 2), b64Char (((a &&& 3) <<< 4) ||| (b >>> 4)),
     b64Char ((b &&& 15) <<< 2), '=']
  | a :: b :: c :: rest =>
    b64Char (a >>> 2) :: b64Char (((a &&& 3) <<< 4) ||| (b >>> 4)) ::
      b64Char (((b &&& 15) <<< 2) ||| (c >>> 6)) :: b64Char (c &&& 63) ::
      base64Chunks rest

/-- Base64 text of a string's UTF-8 bytes
(`Buffer.from(command, "utf8").toString("base64")`). -/
def toBase64 (s : String) : String :=
  String.mk (base64Chunks (utf8Bytes s))

/-- Outcome of the transport's characteristic write: it either resolves or
rejects (throws into the caller's `catch`). -/
inductive WriteOutcome
  | ok
  | fail
deriving DecidableEq, Repr

/-- `sendToggleCommand` (`search-actions.tsx` lines 279-292).  Takes whether
`connectedDevice` is non-null and the transport's write outcome; returns the
emitted effects and whether the call threw into the caller.  With a null
device it alerts and returns normally (no throw, no write); otherwise it
base64-encodes the command and issues the write, which throws exactly when
the transport rejects. -/
def sendToggleCommand (devicePresent : Bool) (command : String)
    (w : WriteOutcome) : List Emit × Bool :=
  if !devicePresent then
    ([Emit.alert "Error" "Device not connected"], false)
  else
    ([Emit.write (toBase64 command)], w = WriteOutcome.fail)

/-- Result of a button-press handler: the new controller state, the emitted
effects, and whether the 3000 ms fallback `setTimeout` clearing the loading
flag was scheduled (it is scheduled only on the success path). -/
structure PressResult where
  state : CtrlState
  emits : List Emit
  fallbackScheduled : Bool
deriving DecidableEq, Repr

/-- `handleBuzzerPress` (`search-actions.tsx` lines 294-312): sets the
loading flag, optimistically flips `buzzerState`, then awaits
`sendToggleCommand "BUZZ_TOGGLE"`.  On success it schedules the 3000 ms
fallback; on a thrown write it clears loading, reverts the flip and alerts. -/
def handleBuzzerPress (devicePresent : Bool) (w : WriteOutcome)
    (s : CtrlState) : PressResult :=
  let s1 : CtrlState := { s with buzzerLoading := true }
  let newBuzzerState : Bool := !s.buzzerState
  let s2 : CtrlState := { s1 with buzzerState := newBuzzerState }
  let res := sendToggleCommand devicePresent "BUZZ_TOGGLE" w
  if res.2 then
    { state := { s2 with buzzerLoading := false, buzzerState := !newBuzzerState },
      emits := res.1 ++ [Emit.alert "Error" "Failed to control buzzer"],
      fallbackScheduled := false }
  else
    { state := s2, emits := res.1, fallbackScheduled := true }

/-- `handleLightPress` (`search-actions.tsx` lines 314-332), the LED
counterpart of `handleBuzzerPress`. -/
def handleLightPress (devicePresent : Bool) (w : WriteOutcome)
    (s : CtrlState) : PressResult :=
  let s1 : CtrlState := { s with ledLoading := true }
  let newLedState : Bool := !s.ledState
  let s2 : CtrlState := { s1 with ledState := newLedState }
  let res := sendToggleCommand devicePresent "LED_TOGGLE" w
  if res.2 then
    { state := { s2 with ledLoading := false, ledState := !newLedState },
      emits := res.1 ++ [Emit.alert "Error" "Failed to control LED"],
      fallbackScheduled := false }
  else
    { state := s2, emits := res.1, fallbackScheduled := true }

/-- A user press of the buzzer control as dispatched by the rendered
`TouchableOpacity` (`search-actions.tsx` lines 385-389): the button carries
`disabled={buzzerLoading}`, so the press reaches `handleBuzzerPress` only
while the loading flag is down; a press while loading is a no-op. -/
def pressBuzzer (devicePresent : Bool) (w : WriteOutcome)
    (s : CtrlState) : PressResult :=
  if s.buzzerLoading then
    { state := s, emits := [], fallbackScheduled := false }
  else
    handleBuzzerPress devicePresent w s

/-- A user press of the LED control (`search-actions.tsx` lines 402-406,
`disabled={ledLoading}`). -/
def pressLight (devicePresent : Bool) (w : WriteOutcome)
    (s : CtrlState) : PressResult :=
  if s.ledLoading then
    { state := s, emits := [], fallbackScheduled := false }
  else
    handleLightPress devicePresent w s

/-- The 3000 ms fallback timer firing for an actuator
(`setTimeout(() => setBuzzerLoading(false), 3000)` and its LED twin): it
clears only that actuator's loading flag. -/
def fallbackFire : Actuator → CtrlState → CtrlState
  | Actuator.buzzer, s => { s with buzzerLoading := false }
  | Actuator.led, s => { s with ledLoading := false }

/-- A user press of an actuator's control, selected by actuator. -/
def pressActuator : Actuator → Bool → WriteOutcome → CtrlState → PressResult
  | Actuator.buzzer => pressBuzzer
  | Actuator.led => pressLight

/-- The four fixed proximity labels of the presentation surface. -/
def proximityLabels : List String :=
  ["Super Near", "Near", "Far", "Super Far"]

/-- The notification callback installed by `setupNotifications`
(`search-actions.tsx` lines 236-277).  `error` is whether the monitor
delivered an error; `response` is the characteristic value after the
transport-level decode `Buffer.from(value, "base64").toString("utf8")`
(absent when `characteristic?.value` is missing).  Matches the four fixed
tokens; anything else (and any error) leaves the state untouched. -/
def onNotification (error : Bool) (response : Option String)
    (s : CtrlState) : CtrlState :=
  if error then s
  else
    match response with
    | none => s
    | some r =>
      if r = "BUZZER_ON" then { s with buzzerState := true, buzzerLoading := false }
      else if r = "BUZZER_OFF" then { s with buzzerState := false, buzzerLoading := false }
      else if r = "LED_ON" then { s with ledState := true, ledLoading := false }
      else if r = "LED_OFF" then { s with ledState := false, ledLoading := false }
      else s

/-- Parses a notification token into the actuator it addresses and the
confirmed boolean value it carries; written from the spec's wording of
`onNotification` for the refinement theorem. -/
def parseToken (r : String) : Option (Actuator × Bool) :=
  if r = "BUZZER_ON" then some (Actuator.buzzer, true)
  else if r = "BUZZER_OFF" then some (Actuator.buzzer, false)
  else if r = "LED_ON" then some (Actuator.led, true)
  else if r = "LED_OFF" then some (Actuator.led, false)
  else none

/-- Sets an actuator's boolean state to the confirmed value and clears that
actuator's pending flag; written from the spec's wording. -/
def setActuator : Actuator → Bool → CtrlState → CtrlState
  | Actuator.buzzer, v, s => { s with buzzerState := v, buzzerLoading := false }
  | Actuator.led, v, s => { s with ledState := v, ledLoading := false }

/-- The spec's description of `onNotification`: decode, match one of the
four fixed tokens, apply the confirmed value and clear pending on match,
ignore everything else.  Compared against `onNotification` by refinement. -/
def onNotificationSpec (error : Bool) (response : Option String)
    (s : CtrlState) : CtrlState :=
  if error then s
  else
    match response with
    | none => s
    | some r =>
      match parseToken r with
      | some (a, v) => setActuator a v s
      | none => s

/-- The token the peripheral sends to confirm an actuator's value. -/
def tokenFor : Actuator → Bool → String
  | Actuator.buzzer, true => "BUZZER_ON"
  | Actuator.buzzer, false => "BUZZER_OFF"
  | Actuator.led, true => "LED_ON"
  | Actuator.led, false => "LED_OFF"

/-- An actuator's boolean state field. -/
def actuatorState : Actuator → CtrlState → Bool
  | Actuator.buzzer, s => s.buzzerState
  | Actuator.led, s => s.ledState

/-- An actuator's pending (loading) flag. -/
def actuatorPending : Actuator → CtrlState → Bool
  | Actuator.buzzer, s => s.buzzerLoading
  | Actuator.led, s => s.ledLoading

/-- Outcome of one RSSI poll tick as seen by the interval callback
(`search-actions.tsx` lines 74-90): `none` when `readRSSI()` threw,
`some none` when it resolved with a `null` `rssi`, `some (some v)` when it
resolved with the number `v`. -/
def TickOutcome : Type := Option (Option Int)

/-- One RSSI poll tick: a numeric read updates `currentRssi`; a thrown read,
a `null` value, or a value strictly below -90 dBm raises the disconnect
modal. -/
def rssiTick (outcome : TickOutcome) (s : CtrlState) : CtrlState :=
  match outcome with
  | none => { s with disconnectModalVisible := true }
  | some none => { s with disconnectModalVisible := true }
  | some (some v) =>
    let s1 : CtrlState := { s with currentRssi := some v }
    if v < -90 then { s1 with disconnectModalVisible := true } else s1

/-- Whether a tick outcome trips the disconnect detection: a thrown read, an
absent value, or a value below the -90 dBm floor. -/
def isTrigger : TickOutcome → Bool
  | none => true
  | some none => true
  | some (some v) => decide (v < -90)

/-- Number of `connectionLost` events over a run of poll ticks: a
`connectionLost` event is the transition of the disconnect modal from hidden
to shown. -/
def connectionLostCount : List TickOutcome → CtrlState → Nat
  | [], _ => 0
  | o :: rest, s =>
    (if s.disconnectModalVisible = false ∧
        (rssiTick o s).disconnectModalVisible = true then 1 else 0)
      + connectionLostCount rest (rssiTick o s)

/-- The session's transport-side resources: the repeating RSSI poll interval
and the notification monitor subscription. -/
structure SessionResources where
  pollingActive : Bool
  subscriptionActive : Bool
deriving DecidableEq, Repr

/-- Session teardown as performed on unmount (or `connectedDevice` change)
by the effect cleanups of `search-actions.tsx`: the RSSI polling effect
(lines 74-90) returns `() => clearInterval(interval)`, stopping the poll;
the notification effect (lines 236-277) returns no cleanup function, so the
monitor subscription is never removed. -/
def stopSession (r : SessionResources) : SessionResources :=
  { r with pollingActive := false }

/-- A concrete healthy state with a buzzer toggle outstanding and the LED
idle. -/
def sampleBuzzerBusy : CtrlState :=
  { currentRssi := some (-60), disconnectModalVisible := false,
    buzzerState := false, buzzerLoading := true,
    ledState := false, ledLoading := false }

/-- A concrete freshly started state: healthy, both actuators idle and off. -/
def sampleStart : CtrlState :=
  { currentRssi := some (-60), disconnectModalVisible := false,
    buzzerState := false, buzzerLoading := false,
    ledState := false, ledLoading := false }

/-- A concrete state whose connection has been deemed lost (disconnect modal
shown) while the actuators are idle. -/
def sampleUnhealthy : CtrlState :=
  { currentRssi := some (-95), disconnectModalVisible := true,
    buzzerState := false, buzzerLoading := false,
    ledState := false, ledLoading := false }

lemma getProximity_some (r : Int) :
    getProximity (some r) =
      if r ≥ -55 then "Super Near"
      else if r ≥ -65 then "Near"
      else if r ≥ -80 then "Far"
      else "Super Far" := rfl

lemma getProximity_some_mem (r : Int) :
    getProximity (some r) ∈ proximityLabels := by
  rw [getProximity_some]
  unfold proximityLabels
  split_ifs <;> simp

/-- C4: for every RSSI value `r`, `getProximity` on `r` is exactly one of the
four fixed labels, with boundaries at -55, -65 and -80 dBm inclusive on the
higher-signal side; in particular `-55` maps to "Super Near". -/
theorem proximity_label_boundaries (r : Int) :
    getProximity (some r) ∈ proximityLabels ∧
    (getProximity (some r) = "Super Near" ↔ -55 ≤ r) ∧
    (getProximity (some r) = "Near" ↔ -65 ≤ r ∧ r < -55) ∧
    (getProximity (some r) = "Far" ↔ -80 ≤ r ∧ r < -65) ∧
    (getProximity (some r) = "Super Far" ↔ r < -80) ∧
    getProximity (some (-55)) = "Super Near" := by
  refine ⟨getProximity_some_mem r, ?_, ?_, ?_, ?_, by decide⟩ <;>
    · rw [getProximity_some]
      split_ifs with h1 h2 h3 <;>
        simp_all <;> omega

/-- C10: a `null` RSSI yields the empty proximity string, which is not one of
the four fixed labels, and the `signal-off` icon; the four labels arise
exactly for numeric RSSI inputs. -/
theorem null_rssi_empty_label_and_off_icon :
    getProximity none = "" ∧
    getSignalIcon none = "signal-off" ∧
    "" ∉ proximityLabels ∧
    (∀ o : Option Int, getProximity o ∈ proximityLabels ↔ o ≠ none) := by
  refine ⟨rfl, rfl, by decide, ?_⟩
  intro o
  cases o with
  | none => simp [getProximity, proximityLabels]
  | some r => simp [getProximity_some_mem r]

/-- C1: when the peripheral write thrown by the transport fails the toggle,
the handler clears that actuator's loading flag, reverts the optimistic flip
(the final actuator state equals the value before the press), and surfaces
exactly one alert; shown for both actuators. -/
theorem write_failure_reverts_and_alerts_once (s : CtrlState) :
    (handleBuzzerPress true WriteOutcome.fail s).state = { s with buzzerLoading := false } ∧
    alertCount (handleBuzzerPress true WriteOutcome.fail s).emits = 1 ∧
    (handleBuzzerPress true WriteOutcome.fail s).state.buzzerState = s.buzzerState ∧
    (handleLightPress true WriteOutcome.fail s).state = { s with ledLoading := false } ∧
    alertCount (handleLightPress true WriteOutcome.fail s).emits = 1 ∧
    (handleLightPress true WriteOutcome.fail s).state.ledState = s.ledState := by
  cases s
  refine ⟨?_, ?_, ?_, ?_, ?_, ?_⟩ <;>
    simp [handleBuzzerPress, handleLightPress, sendToggleCommand,
      alertCount, Emit.isAlert, List.countP_cons]

/-- C2: for every actuator, while that actuator's loading flag is up a
further press of its control is rejected by the `disabled` guard: the state
is unchanged (no second flip) and nothing is emitted (no second write),
whatever the other actuator's flags are. -/
theorem pending_press_is_noop (a : Actuator) (d : Bool) (w : WriteOutcome)
    (s : CtrlState) (h : actuatorPending a s = true) :
    pressActuator a d w s =
      { state := s, emits := [], fallbackScheduled := false } := by
  cases a with
  | buzzer =>
    simp only [actuatorPending] at h
    simp [pressActuator, pressBuzzer, h]
  | led =>
    simp only [actuatorPending] at h
    simp [pressActuator, pressLight, h]

/-- Witness for C2 at a concrete state where only the buzzer is pending. -/
theorem pending_press_is_noop_witness :
    actuatorPending Actuator.buzzer sampleBuzzerBusy = true ∧
    sampleBuzzerBusy.ledLoading = false ∧
    pressActuator Actuator.buzzer true WriteOutcome.ok sampleBuzzerBusy =
      { state := sampleBuzzerBusy, emits := [], fallbackScheduled := false } :=
  ⟨rfl, rfl,
    pending_press_is_noop Actuator.buzzer true WriteOutcome.ok sampleBuzzerBusy rfl⟩

lemma rssiTick_modal (o : TickOutcome) (s : CtrlState) :
    (rssiTick o s).disconnectModalVisible =
      (s.disconnectModalVisible || isTrigger o) := by
  match o with
  | none => simp [rssiTick, isTrigger]
  | some none => simp [rssiTick, isTrigger]
  | some (some v) =>
    simp only [rssiTick, isTrigger]
    by_cases h : v < -90 <;> simp [h]

lemma connectionLostCount_of_shown (outs : List TickOutcome) (s : CtrlState)
    (h : s.disconnectModalVisible = true) :
    connectionLostCount outs s = 0 := by
  induction outs generalizing s with
  | nil => rfl
  | cons o rest ih =>
    have h' : (rssiTick o s).disconnectModalVisible = true := by
      rw [rssiTick_modal, h, Bool.true_or]
    simp [connectionLostCount, h, ih _ h']

lemma connectionLostCount_eq (outs : List TickOutcome) (s : CtrlState) :
    connectionLostCount outs s =
      if s.disconnectModalVisible then 0
      else if outs.any isTrigger then 1 else 0 := by
  induction outs generalizing s with
  | nil => simp [connectionLostCount]
  | cons o rest ih =>
    by_cases hm : s.disconnectModalVisible = true
    · rw [connectionLostCount_of_shown _ _ hm, hm]
      simp
    · rw [Bool.not_eq_true] at hm
      by_cases ht : isTrigger o = true
      · have hm2 : (rssiTick o s).disconnectModalVisible = true := by
          rw [rssiTick_modal, hm, ht, Bool.false_or]
        simp [connectionLostCount, hm, hm2, ht,
          connectionLostCount_of_shown rest _ hm2, List.any_cons]
      · rw [Bool.not_eq_true] at ht
        have hm2 : (rssiTick o s).disconnectModalVisible = false := by
          rw [rssiTick_modal, hm, ht, Bool.false_or]
        simp [connectionLostCount, hm, hm2, ht, ih, List.any_cons]

/-- C3: starting from a healthy session, any run of poll ticks containing a
failing, absent or below-floor read fires `connectionLost` exactly once;
each such tick immediately drops `connectionHealthy`; RSSI -95 is such a
tick; and every numeric read updates `currentRssi`. -/
theorem rssi_fault_disconnects_once (s : CtrlState) (outs : List TickOutcome)
    (hs : s.disconnectModalVisible = false)
    (ht : outs.any isTrigger = true) :
    connectionLostCount outs s = 1 ∧
    (∀ o, isTrigger o = true → connectionHealthy (rssiTick o s) = false) ∧
    isTrigger (some (some (-95))) = true ∧
    connectionHealthy (rssiTick (some (some (-95))) s) = false ∧
    (∀ v : Int, (rssiTick (some (some v)) s).currentRssi = some v) := by
  refine ⟨?_, ?_, by decide, ?_, ?_⟩
  · rw [connectionLostCount_eq, hs]
    simp [ht]
  · intro o h
    simp [connectionHealthy, rssiTick_modal, h]
  · have h : isTrigger (some (some (-95)) : TickOutcome) = true := by decide
    simp [connectionHealthy, rssiTick_modal, h]
  · intro v
    unfold rssiTick
    by_cases h : v < -90 <;> simp [h]

/-- Witness for C3: one tick reading RSSI -95 from a fresh healthy state. -/
theorem rssi_fault_disconnects_once_witness :
    sampleStart.disconnectModalVisible = false ∧
    ([some (some (-95))] : List TickOutcome).any isTrigger = true ∧
    connectionLostCount [some (some (-95))] sampleStart = 1 :=
  ⟨rfl, by decide,
    (rssi_fault_disconnects_once sampleStart [some (some (-95))] rfl (by decide)).1⟩

/-- Counterexample to C5 as stated: in a state whose connection is deemed
lost (`connectionHealthy = false`) but whose handle is present, a buzzer
press still issues a write to the command channel — the `connectionHealthy`
precondition is not checked by `sendToggleCommand`. -/
theorem unhealthy_toggle_still_writes_cex :
    connectionHealthy sampleUnhealthy = false ∧
    writeCount (pressBuzzer true WriteOutcome.ok sampleUnhealthy).emits = 1 := by
  exact ⟨rfl, rfl⟩

/-- C5 (amended): `sendToggleCommand` requires only a present peripheral
handle; with a null handle it surfaces the "Device not connected" alert,
issues no write and returns without throwing; `connectionHealthy` is not
checked — with a present handle a press writes to the command channel even
while the connection is deemed lost. -/
theorem sendToggle_checks_handle_only (cmd : String) (w : WriteOutcome)
    (s : CtrlState) (hmodal : s.disconnectModalVisible = true)
    (hload : s.buzzerLoading = false) :
    sendToggleCommand false cmd w =
      ([Emit.alert "Error" "Device not connected"], false) ∧
    writeCount (sendToggleCommand false cmd w).1 = 0 ∧
    writeCount (pressBuzzer true WriteOutcome.ok s).emits = 1 ∧
    (pressBuzzer true WriteOutcome.ok s).state.disconnectModalVisible = true := by
  refine ⟨rfl, rfl, ?_, ?_⟩ <;>
    simp [pressBuzzer, hload, handleBuzzerPress, sendToggleCommand,
      writeCount, Emit.isWrite, hmodal, List.countP_cons]

/-- Witness for the amended C5 at a concrete unhealthy state. -/
theorem sendToggle_checks_handle_only_witness :
    sampleUnhealthy.disconnectModalVisible = true ∧
    sampleUnhealthy.buzzerLoading = false ∧
    writeCount (sendToggleCommand false "BUZZ_TOGGLE" WriteOutcome.ok).1 = 0 :=
  ⟨rfl, rfl,
    (sendToggle_checks_handle_only "BUZZ_TOGGLE" WriteOutcome.ok
      sampleUnhealthy rfl rfl).2.1⟩

/-- C6: the notification callback behaves exactly as the spec describes it —
it matches the four fixed tokens, on a match sets the addressed actuator to
the confirmed value and clears its pending flag, and leaves the state
untouched on any error or any other payload. -/
theorem notification_matches_spec (e : Bool) (resp : Option String)
    (s : CtrlState) :
    onNotification e resp s = onNotificationSpec e resp s := by
  cases e with
  | true => rfl
  | false =>
    cases resp with
    | none => rfl
    | some r =>
      simp only [onNotification, onNotificationSpec, parseToken]
      split_ifs <;> rfl

/-- C7: a matching confirmation arriving before the fallback timer leaves
the actuator at the confirmed value with pending cleared, the fallback
firing afterwards keeps that value, and the fallback itself only clears
pending and never changes any actuator's boolean state. -/
theorem notification_beats_fallback (a : Actuator) (v : Bool) (s : CtrlState) :
    actuatorState a (onNotification false (some (tokenFor a v)) s) = v ∧
    actuatorPending a (onNotification false (some (tokenFor a v)) s) = false ∧
    actuatorState a (fallbackFire a (onNotification false (some (tokenFor a v)) s)) = v ∧
    actuatorPending a (fallbackFire a (onNotification false (some (tokenFor a v)) s)) = false ∧
    (∀ t : CtrlState, ∀ b : Actuator, actuatorState b (fallbackFire a t) = actuatorState b t) ∧
    (∀ t : CtrlState, actuatorPending a (fallbackFire a t) = false) := by
  cases a <;> cases v <;>
    refine ⟨rfl, rfl, rfl, rfl, fun t b => ?_, fun t => rfl⟩ <;>
      cases b <;> rfl

/-- Counterexample to C8 as stated: teardown clears the polling interval but
leaves the notification monitor subscription active — the two are not
cancelled together. -/
theorem stop_leaves_subscription_cex :
    (stopSession { pollingActive := true, subscriptionActive := true }).pollingActive = false ∧
    (stopSession { pollingActive := true, subscriptionActive := true }).subscriptionActive = true :=
  ⟨rfl, rfl⟩

/-- C8 (amended): teardown cancels the polling timer and is idempotent — a
second `stopSession` adds no further change — but the notification
subscription is left exactly as it was, so teardown of the session's two
resources is not joint. -/
theorem stop_cancels_polling_idempotently (r : SessionResources) :
    (stopSession r).pollingActive = false ∧
    (stopSession r).subscriptionActive = r.subscriptionActive ∧
    stopSession (stopSession r) = stopSession r :=
  ⟨rfl, rfl, rfl⟩

/-- C9: with a null peripheral handle, `sendToggleCommand` alerts and
returns normally (it does not throw), so the press handler's catch branch is
not taken: the optimistic flip stays, no write is issued, the loading flag
remains up, and only the scheduled 3000 ms fallback clears it while keeping
the flipped value. -/
theorem null_handle_press_keeps_flip (w : WriteOutcome) (s : CtrlState) :
    (sendToggleCommand false "BUZZ_TOGGLE" w).2 = false ∧
    (handleBuzzerPress false w s).state.buzzerState = !s.buzzerState ∧
    (handleBuzzerPress false w s).state.buzzerLoading = true ∧
    (handleBuzzerPress false w s).fallbackScheduled = true ∧
    (handleBuzzerPress false w s).emits = [Emit.alert "Error" "Device not connected"] ∧
    (fallbackFire Actuator.buzzer (handleBuzzerPress false w s).state).buzzerLoading = false ∧
    (fallbackFire Actuator.buzzer (handleBuzzerPress false w s).state).buzzerState = !s.buzzerState := by
  refine ⟨rfl, ?_, ?_, ?_, ?_, ?_, ?_⟩ <;>
    simp [handleBuzzerPress, sendToggleCommand, fallbackFire]
